import Mathlib

/-!
Shallow embedding of the CRM GraphQL mutation layer (`crm/schema.py`).

The data store is modelled as explicit lists of rows; each mutation is a
function from a store (plus its arguments) to the store after the call and
an `Except`-style outcome mirroring the Python `raise Exception(msg)` /
return-payload behaviour.  The entity shapes follow the fields that
`crm/schema.py` reads and writes (the Django model declarations themselves
live in `crm/models.py`, whose field list is repeated in the specification,
section 3: Customer has name, email, optional phone; Product has name,
decimal price, integer stock; Order has a customer, a product set, a decimal
total_amount and an order_date).  Decimal values are modelled as rationals,
timestamps as naturals.
-/

namespace Crm

/-- A persisted Customer row: `id`, `name`, `email`, optional `phone`. -/
structure Customer where
  id : Nat
  name : String
  email : String
  phone : Option String
  deriving DecidableEq, Repr

/-- A persisted Product row: `id`, `name`, decimal `price`, integer `stock`. -/
structure Product where
  id : Nat
  name : String
  price : ℚ
  stock : Int
  deriving DecidableEq, Repr

/-- A persisted Order row: `id`, owning customer, associated product ids
(the order–product many-to-many association written by
`order.products.set(products)`), derived `totalAmount`, and `orderDate`. -/
structure Order where
  id : Nat
  customerId : Nat
  productIds : List Nat
  totalAmount : ℚ
  orderDate : Nat
  deriving DecidableEq, Repr

/-- The relational store: one list per table plus fresh-id counters
standing for the store-generated primary keys. -/
structure Store where
  customers : List Customer
  products : List Product
  orders : List Order
  nextCid : Nat
  nextPid : Nat
  nextOid : Nat
  deriving DecidableEq, Repr

/-- `Customer.objects.filter(email=email).exists()`. -/
def emailExists (st : Store) (email : String) : Bool :=
  st.customers.any (fun c => c.email == email)

/-- `Customer.objects.get(id=customer_id)`, `None` on `DoesNotExist`. -/
def getCustomer (st : Store) (cid : Nat) : Option Customer :=
  st.customers.find? (fun c => c.id == cid)

/-- `Product.objects.filter(id__in=product_ids)`: every stored row whose id
occurs in the requested list (each stored row at most once, so duplicate
requested ids collapse). -/
def resolveProducts (st : Store) (pids : List Nat) : List Product :=
  st.products.filter (fun p => pids.contains p.id)

/-! ### Phone pattern

`CreateCustomer.mutate` checks `re.match(r"^(\+?\d{10,15}|(\d{3}-\d{3}-\d{4}))$", phone)`.
`phonePatternFull` is the language of the parenthesised pattern over whole
strings (`\d` modelled as decimal digits).  Python `re.match` anchors at the
start, and in the default (non-multiline) mode `$` matches at the end of the
string *or just before a newline at the end of the string*; `phoneReMatch`
transcribes that: the whole string matches, or the string minus one trailing
newline matches. -/

/-- One alternative of the pattern: `\+?\d{10,15}` over a whole string. -/
def matchPlusDigits (cs : List Char) : Bool :=
  let t := match cs with
    | '+' :: rest => rest
    | _ => cs
  t.all Char.isDigit && decide (10 ≤ t.length) && decide (t.length ≤ 15)

/-- The other alternative: `\d{3}-\d{3}-\d{4}` over a whole string. -/
def matchDashed (cs : List Char) : Bool :=
  match cs with
  | [a, b, c, d1, d, e, f, d2, g, h, i, j] =>
      [a, b, c, d, e, f, g, h, i, j].all Char.isDigit && d1 == '-' && d2 == '-'
  | _ => false

/-- Full match of the pattern `(\+?\d{10,15}|(\d{3}-\d{3}-\d{4}))` against
the entire string. -/
def phonePatternFull (s : String) : Bool :=
  matchPlusDigits s.data || matchDashed s.data

/-- `re.match(r"^(...)$", s)` truthiness: `$` also matches just before a
single newline at the end of the string. -/
def phoneReMatch (s : String) : Bool :=
  phonePatternFull s ||
    (s.data.getLast? == some '\n' && phonePatternFull (String.mk s.data.dropLast))

/-- The guard `phone and not re.match(...)` of `CreateCustomer.mutate`:
`None` and the empty string are falsy, so only a non-empty phone that the
regex rejects blocks the mutation. -/
def phoneBlocked (phone : Option String) : Bool :=
  match phone with
  | none => false
  | some p => !(p == "") && !(phoneReMatch p)

/-! ### Mutations

Each mutation returns the store after the call together with the outcome:
`.error msg` models `raise Exception(msg)` propagating to the caller, in
which case the returned store is the state at the moment of the raise. -/

/-- `CreateCustomer.mutate`: duplicate-email check, phone-format check,
then one row inserted; returns the customer and a confirmation message. -/
def createCustomer (st : Store) (name email : String) (phone : Option String) :
    Store × Except String (Customer × String) :=
  if emailExists st email then
    (st, .error "Email already exists")
  else if phoneBlocked phone then
    (st, .error "Invalid phone format")
  else
    let c : Customer := ⟨st.nextCid, name, email, phone⟩
    ({ st with customers := st.customers ++ [c], nextCid := st.nextCid + 1 },
     .ok (c, "Customer created successfully"))

/-- One input record of `BulkCreateCustomers`. -/
structure CustomerInput where
  name : String
  email : String
  phone : Option String
  deriving DecidableEq, Repr

/-- Insert one customer row (`Customer.objects.create`). -/
def addCustomer (st : Store) (c : Customer) : Store :=
  { st with customers := st.customers ++ [c], nextCid := st.nextCid + 1 }

/-- The loop body of `BulkCreateCustomers.mutate`, carrying the 0-based
enumeration index.  Per row: the duplicate-email check runs against the
current store (so rows created earlier in the same batch are visible); on
failure the error string `"Row {idx+1}: {message}"` is recorded and the row
is skipped; there is no phone-format check.  The created customers and the
error strings are accumulated in input order.  The only exception the loop
body can raise in this model is the duplicate-email one (row creation
itself does not fail). -/
def bulkAux : Nat → Store → List CustomerInput → Store × List Customer × List String
  | _, st, [] => (st, [], [])
  | idx, st, r :: rest =>
    if emailExists st r.email then
      let res := bulkAux (idx + 1) st rest
      (res.1, res.2.1, ("Row " ++ toString (idx + 1) ++ ": Email already exists") :: res.2.2)
    else
      let c : Customer := ⟨st.nextCid, r.name, r.email, r.phone⟩
      let res := bulkAux (idx + 1) (addCustomer st c) rest
      (res.1, c :: res.2.1, res.2.2)

/-- `BulkCreateCustomers.mutate`: fold the loop body over the input rows,
starting at index 0. -/
def bulkCreateCustomers (st : Store) (rows : List CustomerInput) :
    Store × List Customer × List String :=
  bulkAux 0 st rows

/-- `CreateProduct.mutate`: price and stock bounds checks, then one row
inserted; an omitted stock defaults to 0 (`def mutate(..., stock=0)`). -/
def createProduct (st : Store) (name : String) (price : ℚ) (stock : Option Int) :
    Store × Except String Product :=
  let stockVal := stock.getD 0
  if price ≤ 0 then
    (st, .error "Price must be positive")
  else if stockVal < 0 then
    (st, .error "Stock cannot be negative")
  else
    let p : Product := ⟨st.nextPid, name, price, stockVal⟩
    ({ st with products := st.products ++ [p], nextPid := st.nextPid + 1 }, .ok p)

/-- `CreateOrder.mutate`: empty-list, customer-existence and resolved-count
checks, then the Order row is created with `total_amount` the sum of the
resolved products' prices and `order_date` defaulting to the current time,
and the resolved product set is associated.  `now` is the ambient clock
value (`django.utils.timezone.now()`). -/
def createOrder (st : Store) (cid : Nat) (pids : List Nat)
    (orderDate : Option Nat) (now : Nat) : Store × Except String Order :=
  if pids.isEmpty then
    (st, .error "At least one product is required")
  else
    match getCustomer st cid with
    | none => (st, .error "Invalid customer ID")
    | some customer =>
      let products := resolveProducts st pids
      if products.length ≠ pids.length then
        (st, .error "One or more product IDs are invalid")
      else
        let total := (products.map Product.price).sum
        let o : Order := ⟨st.nextOid, customer.id, products.map Product.id, total,
          orderDate.getD now⟩
        ({ st with orders := st.orders ++ [o], nextOid := st.nextOid + 1 }, .ok o)

/-- Decidable equality of mutation outcomes, for evaluating the model on
concrete inputs. -/
instance {ε α : Type} [DecidableEq ε] [DecidableEq α] : DecidableEq (Except ε α) := fun a b =>
  match a, b with
  | .error x, .error y =>
    if h : x = y then .isTrue (by rw [h]) else .isFalse (fun hh => h (Except.error.inj hh))
  | .ok x, .ok y =>
    if h : x = y then .isTrue (by rw [h]) else .isFalse (fun hh => h (Except.ok.inj hh))
  | .error _, .ok _ => .isFalse (fun hh => Except.noConfusion hh)
  | .ok _, .error _ => .isFalse (fun hh => Except.noConfusion hh)

/-! ### Claims -/

/-- Claim C1: if a persisted Customer already has the given email,
`createCustomer` fails with the duplicate-email error and the store is
unchanged (no new row); if the email is fresh and the phone guard passes
(phone absent, empty, or matching the pattern), exactly one new Customer
row is appended whose name, email and phone equal the inputs, and that
customer is returned together with the confirmation message. -/
theorem createCustomer_spec (st : Store) (name email : String) (phone : Option String) :
    (emailExists st email = true →
      createCustomer st name email phone = (st, .error "Email already exists")) ∧
    (emailExists st email = false → phoneBlocked phone = false →
      createCustomer st name email phone =
        ({ st with
             customers := st.customers ++ [⟨st.nextCid, name, email, phone⟩],
             nextCid := st.nextCid + 1 },
         .ok (⟨st.nextCid, name, email, phone⟩, "Customer created successfully"))) := by
  constructor
  · intro h
    simp [createCustomer, h]
  · intro h1 h2
    simp [createCustomer, h1, h2]

/-- Witness for C1 at concrete inputs: a fresh email with a well-formed
phone creates exactly one row with the input fields. -/
theorem createCustomer_spec_witness :
    createCustomer ⟨[], [], [], 0, 0, 0⟩ "Alice" "a@x.io" (some "123-456-7890") =
      ({ customers := [⟨0, "Alice", "a@x.io", some "123-456-7890"⟩], products := [],
         orders := [], nextCid := 1, nextPid := 0, nextOid := 0 },
       .ok (⟨0, "Alice", "a@x.io", some "123-456-7890"⟩, "Customer created successfully")) :=
  (createCustomer_spec ⟨[], [], [], 0, 0, 0⟩ "Alice" "a@x.io" (some "123-456-7890")).2
    (by decide) (by decide)

/-- Counterexample to claim C5 as stated: with price = −5 and stock = −1,
`createProduct` fails with the price error, not the stock error, so
"fails with InvalidStock if and only if stock < 0" is false at this input
(stock is negative, yet the outcome is not the InvalidStock error). -/
theorem createProduct_claim_cex :
    ((-1 : Int) < 0) ∧
    (createProduct ⟨[], [], [], 0, 0, 0⟩ "p" (-5) (some (-1))).2 = .error "Price must be positive" ∧
    (createProduct ⟨[], [], [], 0, 0, 0⟩ "p" (-5) (some (-1))).2 ≠ .error "Stock cannot be negative" := by
  refine ⟨by decide, rfl, ?_⟩
  intro h
  have h2 : ("Price must be positive" : String) = "Stock cannot be negative" :=
    Except.error.inj ((rfl : (createProduct ⟨[], [], [], 0, 0, 0⟩ "p" (-5) (some (-1))).2 =
      .error "Price must be positive").symm.trans h)
  exact absurd h2 (by decide)

/-- Claim C5 (amended: the price check runs first, so a non-positive price
shadows a negative stock): `createProduct` fails with the price error iff
price ≤ 0; when price > 0 it fails with the stock error iff the effective
stock (defaulting to 0 when omitted) is negative; and with a positive
price and stock omitted it succeeds, persisting exactly one Product row
with the given name and price and stock 0, and returning it. -/
theorem createProduct_checks (st : Store) (name : String) (price : ℚ) (stock : Option Int) :
    ((createProduct st name price stock).2 = .error "Price must be positive" ↔ price ≤ 0) ∧
    (0 < price →
      ((createProduct st name price stock).2 = .error "Stock cannot be negative" ↔
        stock.getD 0 < 0)) ∧
    (0 < price → stock = none →
      createProduct st name price stock =
        ({ st with
             products := st.products ++ [⟨st.nextPid, name, price, 0⟩],
             nextPid := st.nextPid + 1 }, .ok ⟨st.nextPid, name, price, 0⟩)) := by
  refine ⟨?_, ?_, ?_⟩
  · by_cases h1 : price ≤ 0
    · simp [createProduct, h1]
    · by_cases h2 : stock.getD 0 < 0
      · simp [createProduct, h1, h2]
      · simp [createProduct, h1, h2]
  · intro hp
    have h1 : ¬ price ≤ 0 := not_le.mpr hp
    by_cases h2 : stock.getD 0 < 0
    · simp [createProduct, h1, h2]
    · simp [createProduct, h1, h2]
  · intro hp hnone
    subst hnone
    have h1 : ¬ price ≤ 0 := not_le.mpr hp
    simp [createProduct, h1]

/-- Witness for C5's amended theorem: price = 10 with stock omitted
succeeds with stock 0. -/
theorem createProduct_checks_witness :
    createProduct ⟨[], [], [], 0, 0, 0⟩ "Widget" 10 none =
      ({ customers := [], products := [⟨0, "Widget", 10, 0⟩], orders := [],
         nextCid := 0, nextPid := 1, nextOid := 0 }, .ok ⟨0, "Widget", 10, 0⟩) :=
  (createProduct_checks ⟨[], [], [], 0, 0, 0⟩ "Widget" 10 none).2.2 (by norm_num) rfl

/-- Claim C8: every single (non-bulk) mutation is atomic on failure —
whenever `createCustomer`, `createProduct` or `createOrder` returns an
error outcome, the store it returns is exactly the store it was given. -/
theorem single_mutation_atomicity (st : Store) (name email : String) (phone : Option String)
    (pname : String) (price : ℚ) (stock : Option Int)
    (cid : Nat) (pids : List Nat) (orderDate : Option Nat) (now : Nat) :
    (∀ msg, (createCustomer st name email phone).2 = .error msg →
      (createCustomer st name email phone).1 = st) ∧
    (∀ msg, (createProduct st pname price stock).2 = .error msg →
      (createProduct st pname price stock).1 = st) ∧
    (∀ msg, (createOrder st cid pids orderDate now).2 = .error msg →
      (createOrder st cid pids orderDate now).1 = st) := by
  refine ⟨?_, ?_, ?_⟩
  · intro msg h
    by_cases h1 : emailExists st email
    · simp [createCustomer, h1]
    · by_cases h2 : phoneBlocked phone
      · simp [createCustomer, h1, h2]
      · simp [createCustomer, h1, h2] at h
  · intro msg h
    by_cases h1 : price ≤ 0
    · simp [createProduct, h1]
    · by_cases h2 : stock.getD 0 < 0
      · simp [createProduct, h1, h2]
      · simp [createProduct, h1, h2] at h
  · intro msg h
    by_cases h1 : pids.isEmpty
    · simp [createOrder, h1]
    · rcases hc : getCustomer st cid with _ | c
      · simp [createOrder, h1, hc]
      · by_cases h2 : (resolveProducts st pids).length ≠ pids.length
        · simp [createOrder, h1, hc, h2]
        · simp [createOrder, h1, hc, h2] at h

/-- Witness for C8 at concrete failing inputs: a duplicate email, a
non-positive price, and an empty product list each leave the store
untouched. -/
theorem single_mutation_atomicity_witness :
    (createCustomer ⟨[⟨0, "a", "a@x", none⟩], [], [], 1, 0, 0⟩ "b" "a@x" none).1 =
      ⟨[⟨0, "a", "a@x", none⟩], [], [], 1, 0, 0⟩ ∧
    (createProduct ⟨[], [], [], 0, 0, 0⟩ "p" 0 none).1 = ⟨[], [], [], 0, 0, 0⟩ ∧
    (createOrder ⟨[], [], [], 0, 0, 0⟩ 0 [] none 7).1 = ⟨[], [], [], 0, 0, 0⟩ := by
  refine ⟨?_, ?_, ?_⟩
  · exact (single_mutation_atomicity ⟨[⟨0, "a", "a@x", none⟩], [], [], 1, 0, 0⟩
      "b" "a@x" none "p" 0 none 0 [] none 7).1 "Email already exists" rfl
  · exact (single_mutation_atomicity ⟨[], [], [], 0, 0, 0⟩
      "b" "a@x" none "p" 0 none 0 [] none 7).2.1 "Price must be positive" rfl
  · exact (single_mutation_atomicity ⟨[], [], [], 0, 0, 0⟩
      "b" "a@x" none "p" 0 none 0 [] none 7).2.2 "At least one product is required" rfl

/-- Claim C3: every successful `createOrder` produces an Order whose
total amount is the sum of the resolved products' current prices, whose
order date is the supplied timestamp (or the current time when none is
supplied), whose associated product set is exactly the resolved product
set, and which is the one row appended to the orders table. -/
theorem createOrder_success_fields (st : Store) (cid : Nat) (pids : List Nat)
    (orderDate : Option Nat) (now : Nat) (st' : Store) (o : Order)
    (h : createOrder st cid pids orderDate now = (st', .ok o)) :
    o.totalAmount = ((resolveProducts st pids).map Product.price).sum ∧
    o.orderDate = orderDate.getD now ∧
    o.productIds = (resolveProducts st pids).map Product.id ∧
    st'.orders = st.orders ++ [o] := by
  by_cases h1 : pids.isEmpty
  · simp [createOrder, h1] at h
  · rcases hc : getCustomer st cid with _ | c
    · simp [createOrder, h1, hc] at h
    · by_cases h2 : (resolveProducts st pids).length ≠ pids.length
      · simp [createOrder, h1, hc, h2] at h
      · simp [createOrder, h1, hc, h2] at h
        obtain ⟨hst, ho⟩ := h
        subst hst
        subst ho
        simp

/-- Witness for C3 at the specification's example: products priced 10.00
and 15.50 give a total of 25.50, the supplied-date default applies, and
exactly the two resolved products are associated. -/
theorem createOrder_success_fields_witness :
    (⟨0, 0, [10, 11], 51/2, 99⟩ : Order).totalAmount =
      ((resolveProducts ⟨[⟨0, "c", "c@x", none⟩],
        [⟨10, "p1", 10, 0⟩, ⟨11, "p2", 31/2, 0⟩], [], 1, 12, 0⟩ [10, 11]).map Product.price).sum ∧
    (⟨0, 0, [10, 11], 51/2, 99⟩ : Order).orderDate = (none : Option Nat).getD 99 ∧
    (⟨0, 0, [10, 11], 51/2, 99⟩ : Order).productIds =
      ((resolveProducts ⟨[⟨0, "c", "c@x", none⟩],
        [⟨10, "p1", 10, 0⟩, ⟨11, "p2", 31/2, 0⟩], [], 1, 12, 0⟩ [10, 11]).map Product.id) ∧
    (⟨[⟨0, "c", "c@x", none⟩], [⟨10, "p1", 10, 0⟩, ⟨11, "p2", 31/2, 0⟩],
        [⟨0, 0, [10, 11], 51/2, 99⟩], 1, 12, 1⟩ : Store).orders =
      ([] : List Order) ++ [⟨0, 0, [10, 11], 51/2, 99⟩] := by
  have h := createOrder_success_fields
    ⟨[⟨0, "c", "c@x", none⟩], [⟨10, "p1", 10, 0⟩, ⟨11, "p2", 31/2, 0⟩], [], 1, 12, 0⟩
    0 [10, 11] none 99
    ⟨[⟨0, "c", "c@x", none⟩], [⟨10, "p1", 10, 0⟩, ⟨11, "p2", 31/2, 0⟩],
      [⟨0, 0, [10, 11], 51/2, 99⟩], 1, 12, 1⟩
    ⟨0, 0, [10, 11], 51/2, 99⟩ (by simp [createOrder, getCustomer, resolveProducts]; norm_num)
  exact h

/-- Claim C4: `createOrder` fails with the empty-list error when
product_ids is empty; otherwise with the unknown-customer error when the
customer id resolves to no Customer; otherwise it fails with the
invalid-ids error exactly when the resolved-product count differs from
the requested-id count; otherwise it succeeds. -/
theorem createOrder_error_cases (st : Store) (cid : Nat) (pids : List Nat)
    (orderDate : Option Nat) (now : Nat) :
    (pids = [] →
      createOrder st cid pids orderDate now = (st, .error "At least one product is required")) ∧
    (pids ≠ [] → getCustomer st cid = none →
      createOrder st cid pids orderDate now = (st, .error "Invalid customer ID")) ∧
    (pids ≠ [] → getCustomer st cid ≠ none →
      ((createOrder st cid pids orderDate now).2 = .error "One or more product IDs are invalid" ↔
        (resolveProducts st pids).length ≠ pids.length)) ∧
    (pids ≠ [] → getCustomer st cid ≠ none →
      (resolveProducts st pids).length = pids.length →
      ∃ o, (createOrder st cid pids orderDate now).2 = .ok o) := by
  refine ⟨?_, ?_, ?_, ?_⟩
  · intro h
    subst h
    simp [createOrder]
  · intro h1 h2
    simp [createOrder, List.isEmpty_iff, h1, h2]
  · intro h1 h2
    rcases hc : getCustomer st cid with _ | c
    · exact absurd hc h2
    · by_cases h3 : (resolveProducts st pids).length ≠ pids.length
      · simp [createOrder, List.isEmpty_iff, h1, hc, h3]
      · simp [createOrder, List.isEmpty_iff, h1, hc, h3]
  · intro h1 h2 h3
    rcases hc : getCustomer st cid with _ | c
    · exact absurd hc h2
    · refine ⟨⟨st.nextOid, c.id, (resolveProducts st pids).map Product.id,
        ((resolveProducts st pids).map Product.price).sum, orderDate.getD now⟩, ?_⟩
      simp [createOrder, List.isEmpty_iff, h1, hc, h3]

/-- Witness for C4 at concrete inputs: the empty list is rejected, an
unknown customer is rejected, a missing product id is rejected, and an
all-valid request succeeds. -/
theorem createOrder_error_cases_witness :
    createOrder ⟨[⟨0, "c", "c@x", none⟩], [⟨10, "p1", 10, 0⟩], [], 1, 11, 0⟩ 0 [] none 7 =
      (⟨[⟨0, "c", "c@x", none⟩], [⟨10, "p1", 10, 0⟩], [], 1, 11, 0⟩,
        .error "At least one product is required") ∧
    createOrder ⟨[⟨0, "c", "c@x", none⟩], [⟨10, "p1", 10, 0⟩], [], 1, 11, 0⟩ 5 [10] none 7 =
      (⟨[⟨0, "c", "c@x", none⟩], [⟨10, "p1", 10, 0⟩], [], 1, 11, 0⟩,
        .error "Invalid customer ID") ∧
    (createOrder ⟨[⟨0, "c", "c@x", none⟩], [⟨10, "p1", 10, 0⟩], [], 1, 11, 0⟩ 0 [10, 99] none 7).2 =
      .error "One or more product IDs are invalid" ∧
    ∃ o, (createOrder ⟨[⟨0, "c", "c@x", none⟩], [⟨10, "p1", 10, 0⟩], [], 1, 11, 0⟩
      0 [10] none 7).2 = .ok o := by
  refine ⟨?_, ?_, ?_, ?_⟩
  · exact (createOrder_error_cases ⟨[⟨0, "c", "c@x", none⟩], [⟨10, "p1", 10, 0⟩], [], 1, 11, 0⟩
      0 [] none 7).1 rfl
  · exact (createOrder_error_cases ⟨[⟨0, "c", "c@x", none⟩], [⟨10, "p1", 10, 0⟩], [], 1, 11, 0⟩
      5 [10] none 7).2.1 (by decide) (by decide)
  · exact (createOrder_error_cases ⟨[⟨0, "c", "c@x", none⟩], [⟨10, "p1", 10, 0⟩], [], 1, 11, 0⟩
      0 [10, 99] none 7).2.2.1 (by decide) (by decide) |>.mpr (by decide)
  · exact (createOrder_error_cases ⟨[⟨0, "c", "c@x", none⟩], [⟨10, "p1", 10, 0⟩], [], 1, 11, 0⟩
      0 [10] none 7).2.2.2 (by decide) (by decide) (by decide)

/-- The phone guard passes on a non-empty string exactly when the string,
or the string minus one trailing newline, is a full match of the pattern. -/
lemma phoneBlocked_iff (p : String) (hne : p ≠ "") :
    phoneBlocked (some p) = false ↔
      (phonePatternFull p = true ∨
        (p.data.getLast? = some '\n' ∧ phonePatternFull (String.mk p.data.dropLast) = true)) := by
  have hbe : (p == "") = false := beq_eq_false_iff_ne.mpr hne
  simp [phoneBlocked, phoneReMatch, hbe]
  rcases Bool.eq_false_or_eq_true (phonePatternFull p) with hful | hful <;> simp [hful]

/-- Counterexample to claim C6 as stated: the phone "0123456789\n" (ten
digits followed by a newline) is not a full match of the pattern against
the entire string, yet `createCustomer` accepts it, because Python's `$`
in `re.match` also matches just before a trailing newline.  So "accepts
if and only if the entire string matches" is false at this input. -/
theorem createCustomer_phone_cex :
    phonePatternFull "0123456789\n" = false ∧
    (createCustomer ⟨[], [], [], 0, 0, 0⟩ "n" "e@x" (some "0123456789\n")).2 =
      .ok (⟨0, "n", "e@x", some "0123456789\n"⟩, "Customer created successfully") := by
  exact ⟨rfl, rfl⟩

/-- Claim C6 (amended: Python `re.match` with a `$` anchor also accepts a
single trailing newline): `createCustomer`'s phone validation accepts an
absent or empty phone; a non-empty phone is rejected with the
invalid-format error exactly when neither the entire string nor the
string minus one trailing newline is a full match of the pattern
`^(\+?\d{10,15}|\d{3}-\d{3}-\d{4})$`. -/
theorem createCustomer_phone_acceptance (st : Store) (name email p : String)
    (hfresh : emailExists st email = false) (hne : p ≠ "") :
    ((createCustomer st name email (some p)).2 = .error "Invalid phone format" ↔
      ¬(phonePatternFull p = true ∨
        (p.data.getLast? = some '\n' ∧ phonePatternFull (String.mk p.data.dropLast) = true))) := by
  have hb := phoneBlocked_iff p hne
  constructor
  · intro herr hx
    have hbf := hb.mpr hx
    simp [createCustomer, hfresh, hbf] at herr
  · intro hnx
    have hbt : phoneBlocked (some p) = true := by
      cases hbt : phoneBlocked (some p)
      · exact absurd (hb.mp hbt) hnx
      · rfl
    simp [createCustomer, hfresh, hbt]

/-- Witness for C6's amended theorem: a dashed phone number is accepted
(the invalid-format error is not raised). -/
theorem createCustomer_phone_acceptance_witness :
    (createCustomer ⟨[], [], [], 0, 0, 0⟩ "n" "e@x" (some "123-456-7890")).2 ≠
      Except.error "Invalid phone format" := fun h =>
  ((createCustomer_phone_acceptance ⟨[], [], [], 0, 0, 0⟩ "n" "e@x" "123-456-7890"
      rfl (by decide)).mp h) (Or.inl (by decide))

/-- Each bulk row lands in exactly one of the two result lists, so their
lengths sum to the number of rows processed. -/
lemma bulkAux_length (rows : List CustomerInput) : ∀ (idx : Nat) (st : Store),
    (bulkAux idx st rows).2.1.length + (bulkAux idx st rows).2.2.length = rows.length := by
  induction rows with
  | nil => intro idx st; rfl
  | cons r rest ih =>
    intro idx st
    by_cases h : emailExists st r.email
    · have := ih (idx + 1) st
      simp only [bulkAux, h, if_true, List.length_cons]
      omega
    · have := ih (idx + 1) (addCustomer st ⟨st.nextCid, r.name, r.email, r.phone⟩)
      simp only [bulkAux, h, Bool.false_eq_true, if_false, List.length_cons]
      omega

/-- Every recorded bulk error is the duplicate-email message for a 1-based
row index within the processed range. -/
lemma bulkAux_error_mem (rows : List CustomerInput) : ∀ (idx : Nat) (st : Store) (e : String),
    e ∈ (bulkAux idx st rows).2.2 →
    ∃ i, idx + 1 ≤ i ∧ i ≤ idx + rows.length ∧
      e = "Row " ++ toString i ++ ": Email already exists" := by
  induction rows with
  | nil => intro idx st e h; simp [bulkAux] at h
  | cons r rest ih =>
    intro idx st e h
    by_cases hd : emailExists st r.email
    · simp only [bulkAux, hd, if_true, List.mem_cons] at h
      rcases h with rfl | h
      · exact ⟨idx + 1, le_refl _, by simp only [List.length_cons]; omega, rfl⟩
      · obtain ⟨i, hi1, hi2, hi3⟩ := ih (idx + 1) st e h
        exact ⟨i, by omega, by simp only [List.length_cons]; omega, hi3⟩
    · simp only [bulkAux, hd, Bool.false_eq_true, if_false] at h
      obtain ⟨i, hi1, hi2, hi3⟩ :=
        ih (idx + 1) (addCustomer st ⟨st.nextCid, r.name, r.email, r.phone⟩) e h
      exact ⟨i, by omega, by simp only [List.length_cons]; omega, hi3⟩

/-- Claim C2: `bulkCreateCustomers` partitions its input rows exactly —
the created-customers list and the error list have lengths summing to the
input length — and every error string has the exact form
"Row {index}: {message}" with a 1-based index within the input range
(the only per-row failure being the duplicate-email one). -/
theorem bulkCreateCustomers_partition (st : Store) (rows : List CustomerInput) :
    (bulkCreateCustomers st rows).2.1.length + (bulkCreateCustomers st rows).2.2.length
        = rows.length ∧
    ∀ e ∈ (bulkCreateCustomers st rows).2.2,
      ∃ i, 1 ≤ i ∧ i ≤ rows.length ∧
        e = "Row " ++ toString i ++ ": Email already exists" := by
  constructor
  · exact bulkAux_length rows 0 st
  · intro e he
    obtain ⟨i, hi1, hi2, hi3⟩ := bulkAux_error_mem rows 0 st e he
    exact ⟨i, hi1, by simpa using hi2, hi3⟩

/-- Witness for C2 on a two-row batch whose second row repeats the first
row's email: one created customer, one error, lengths summing to two, and
the error is the exact duplicate-email string for row 2. -/
theorem bulkCreateCustomers_partition_witness :
    (bulkCreateCustomers ⟨[], [], [], 0, 0, 0⟩
        [⟨"a", "e@x", none⟩, ⟨"b", "e@x", none⟩]).2.1.length +
      (bulkCreateCustomers ⟨[], [], [], 0, 0, 0⟩
        [⟨"a", "e@x", none⟩, ⟨"b", "e@x", none⟩]).2.2.length = 2 ∧
    ∃ i, 1 ≤ i ∧ i ≤ 2 ∧
      "Row 2: Email already exists" = "Row " ++ toString i ++ ": Email already exists" := by
  have h := bulkCreateCustomers_partition ⟨[], [], [], 0, 0, 0⟩
    [⟨"a", "e@x", none⟩, ⟨"b", "e@x", none⟩]
  exact ⟨h.1, h.2 "Row 2: Email already exists" (by decide)⟩

/-- Claim C7: `bulkCreateCustomers` performs no phone-format validation —
at any point of the batch (any loop index and intermediate store), a row
whose email is not persisted is created with exactly its input fields,
with no condition whatsoever on its phone string. -/
theorem bulk_no_phone_validation (idx : Nat) (st : Store) (r : CustomerInput)
    (rest : List CustomerInput) (h : emailExists st r.email = false) :
    (bulkAux idx st (r :: rest)).2.1.head? = some ⟨st.nextCid, r.name, r.email, r.phone⟩ ∧
    (bulkCreateCustomers st (r :: rest)).2.1.head? =
      some ⟨st.nextCid, r.name, r.email, r.phone⟩ := by
  constructor
  · simp [bulkAux, h]
  · simp [bulkCreateCustomers, bulkAux, h]

/-- Witness for C7: a phone string that single `createCustomer` rejects
with the invalid-format error is nevertheless created by the bulk
mutation. -/
theorem bulk_no_phone_validation_witness :
    (bulkCreateCustomers ⟨[], [], [], 0, 0, 0⟩ [⟨"B", "b@x", some "abc!"⟩]).2.1.head? =
      some ⟨0, "B", "b@x", some "abc!"⟩ ∧
    (createCustomer ⟨[], [], [], 0, 0, 0⟩ "B" "b@x" (some "abc!")).2 =
      .error "Invalid phone format" :=
  ⟨(bulk_no_phone_validation 0 ⟨[], [], [], 0, 0, 0⟩ ⟨"B", "b@x", some "abc!"⟩ [] rfl).2, rfl⟩

/-- Inserting a row preserves the presence of any email. -/
lemma emailExists_addCustomer (st : Store) (c : Customer) (e : String)
    (h : emailExists st e = true) : emailExists (addCustomer st c) e = true := by
  simp only [emailExists, addCustomer, List.any_append, Bool.or_eq_true]
  exact Or.inl h

/-- If an email is already present when the loop reaches a row carrying
it, the duplicate-email error for that row's 1-based index is recorded. -/
lemma bulkAux_err_of_emailExists (mid : List CustomerInput) :
    ∀ (idx : Nat) (st : Store) (r2 : CustomerInput) (rest : List CustomerInput),
    emailExists st r2.email = true →
    ("Row " ++ toString (idx + mid.length + 1) ++ ": Email already exists")
      ∈ (bulkAux idx st (mid ++ r2 :: rest)).2.2 := by
  induction mid with
  | nil =>
    intro idx st r2 rest h
    simp [bulkAux, h]
  | cons m ms ih =>
    intro idx st r2 rest h
    have harith : idx + (ms.length + 1) + 1 = (idx + 1) + ms.length + 1 := by omega
    by_cases hd : emailExists st m.email
    · have hmem := ih (idx + 1) st r2 rest h
      simp only [List.cons_append, bulkAux, hd, if_true, List.mem_cons, List.length_cons]
      rw [harith]
      exact Or.inr hmem
    · have hmem := ih (idx + 1) (addCustomer st ⟨st.nextCid, m.name, m.email, m.phone⟩) r2 rest
        (emailExists_addCustomer st _ _ h)
      simp only [List.cons_append, bulkAux, hd, Bool.false_eq_true, if_false, List.length_cons]
      rw [harith]
      exact hmem

/-- Claim C10: within one `bulkCreateCustomers` batch, duplicate emails
among the batch's own rows are caught: when an initial row's email is not
yet persisted (so that row succeeds) and a later row carries the same
email, the later row fails with the duplicate-email error at its 1-based
index, because each row's uniqueness check runs against the store after
all earlier rows of the batch were persisted. -/
theorem bulk_intra_batch_duplicate (st : Store) (r1 : CustomerInput)
    (mid : List CustomerInput) (r2 : CustomerInput) (rest : List CustomerInput)
    (h1 : emailExists st r1.email = false) (h2 : r2.email = r1.email) :
    ("Row " ++ toString (mid.length + 2) ++ ": Email already exists")
      ∈ (bulkCreateCustomers st (r1 :: (mid ++ r2 :: rest))).2.2 := by
  have hafter : emailExists (addCustomer st ⟨st.nextCid, r1.name, r1.email, r1.phone⟩)
      r2.email = true := by
    simp [emailExists, addCustomer, h2]
  have hmem := bulkAux_err_of_emailExists mid 1
    (addCustomer st ⟨st.nextCid, r1.name, r1.email, r1.phone⟩) r2 rest hafter
  have harith : 1 + mid.length + 1 = mid.length + 2 := by omega
  rw [harith] at hmem
  simp only [bulkCreateCustomers, bulkAux, h1, Bool.false_eq_true, if_false]
  exact hmem

/-- Witness for C10: two rows sharing a fresh email — the first succeeds
and the second fails with "Row 2: Email already exists". -/
theorem bulk_intra_batch_duplicate_witness :
    "Row 2: Email already exists" ∈
      (bulkCreateCustomers ⟨[], [], [], 0, 0, 0⟩
        [⟨"a", "e@x", none⟩, ⟨"b", "e@x", some "zz"⟩]).2.2 := by
  have h := bulk_intra_batch_duplicate ⟨[], [], [], 0, 0, 0⟩ ⟨"a", "e@x", none⟩ []
    ⟨"b", "e@x", some "zz"⟩ [] rfl rfl
  simpa using h

/-- With no duplicate ids in the store, the resolved-product count equals
the number of distinct requested ids, provided every requested id exists. -/
lemma resolveProducts_length_eq_dedup (st : Store) (pids : List Nat)
    (hstore : (st.products.map Product.id).Nodup)
    (hex : ∀ pid ∈ pids, pid ∈ st.products.map Product.id) :
    (resolveProducts st pids).length = pids.dedup.length := by
  have hsub : ((resolveProducts st pids).map Product.id).Sublist (st.products.map Product.id) :=
    (List.filter_sublist st.products).map Product.id
  have hnd : ((resolveProducts st pids).map Product.id).Nodup := hstore.sublist hsub
  have hmem : ∀ x, x ∈ (resolveProducts st pids).map Product.id ↔ x ∈ pids.dedup := by
    intro x
    rw [List.mem_dedup]
    constructor
    · intro hx
      obtain ⟨p, hp, rfl⟩ := List.mem_map.mp hx
      have := List.of_mem_filter hp
      exact List.elem_iff.mp this
    · intro hx
      obtain ⟨p, hp, rfl⟩ := List.mem_map.mp (hex x hx)
      refine List.mem_map.mpr ⟨p, ?_, rfl⟩
      exact List.mem_filter.mpr ⟨hp, List.elem_iff.mpr hx⟩
  have hperm : ((resolveProducts st pids).map Product.id).Perm pids.dedup :=
    (List.perm_ext_iff_of_nodup hnd (List.nodup_dedup pids)).mpr hmem
  calc (resolveProducts st pids).length
      = ((resolveProducts st pids).map Product.id).length := (List.length_map _ _).symm
    _ = pids.dedup.length := hperm.length_eq

/-- A list with a duplicate has strictly fewer distinct values. -/
lemma dedup_length_lt_of_not_nodup (pids : List Nat) (hdup : ¬ pids.Nodup) :
    pids.dedup.length < pids.length := by
  rcases Nat.lt_or_ge pids.dedup.length pids.length with h | h
  · exact h
  · exfalso
    have hle := (List.dedup_sublist pids).length_le
    have heq : pids.dedup.length = pids.length := Nat.le_antisymm hle h
    exact hdup (List.dedup_eq_self.mp ((List.dedup_sublist pids).eq_of_length heq))

/-- Claim C9: a `createOrder` request whose product_ids list repeats an
existing product id (all ids existing, the customer existing, the store
free of duplicate product ids) is rejected with the invalid-ids error:
resolution deduplicates the ids, so the resolved count falls strictly
below the requested count and the counting check fails. -/
theorem createOrder_duplicate_ids (st : Store) (cid : Nat) (pids : List Nat)
    (orderDate : Option Nat) (now : Nat)
    (hstore : (st.products.map Product.id).Nodup)
    (hdup : ¬ pids.Nodup)
    (hex : ∀ pid ∈ pids, pid ∈ st.products.map Product.id)
    (hcust : getCustomer st cid ≠ none) :
    (resolveProducts st pids).length < pids.length ∧
    createOrder st cid pids orderDate now =
      (st, .error "One or more product IDs are invalid") := by
  have hlt : (resolveProducts st pids).length < pids.length := by
    rw [resolveProducts_length_eq_dedup st pids hstore hex]
    exact dedup_length_lt_of_not_nodup pids hdup
  refine ⟨hlt, ?_⟩
  have hne : pids ≠ [] := by
    intro h
    subst h
    exact hdup List.nodup_nil
  rcases hc : getCustomer st cid with _ | c
  · exact absurd hc hcust
  · simp [createOrder, List.isEmpty_iff, hne, hc, Nat.ne_of_lt hlt]

/-- Witness for C9: requesting the same existing product id twice is
rejected with the invalid-ids error even though both ids exist. -/
theorem createOrder_duplicate_ids_witness :
    (resolveProducts ⟨[⟨0, "c", "c@x", none⟩], [⟨10, "p1", 10, 0⟩, ⟨11, "p2", 3, 0⟩],
        [], 1, 12, 0⟩ [10, 10]).length < ([10, 10] : List Nat).length ∧
    createOrder ⟨[⟨0, "c", "c@x", none⟩], [⟨10, "p1", 10, 0⟩, ⟨11, "p2", 3, 0⟩],
        [], 1, 12, 0⟩ 0 [10, 10] none 7 =
      (⟨[⟨0, "c", "c@x", none⟩], [⟨10, "p1", 10, 0⟩, ⟨11, "p2", 3, 0⟩], [], 1, 12, 0⟩,
        .error "One or more product IDs are invalid") :=
  createOrder_duplicate_ids ⟨[⟨0, "c", "c@x", none⟩], [⟨10, "p1", 10, 0⟩, ⟨11, "p2", 3, 0⟩],
      [], 1, 12, 0⟩ 0 [10, 10] none 7
    (by decide) (by decide) (by decide) (by decide)

end Crm
